import Mathlib

/-!
Verification of the combat-resolution core of the Augmented-Ascension-III
arena fighter (Rust/Bevy).  The definitions below are a shallow embedding of
the relevant source functions: `f32`/`f64` values are modelled as rationals,
`u32` values as naturals with explicit wrap-around arithmetic where the
source performs machine subtraction, Bevy `HashMap`s and ECS queries as
association lists keyed by decidable-equality keys, and entities as naturals.
-/

/-- Entities are opaque handles; we model them as naturals. -/
abbrev Entity : Type := Nat

/-- `u32` modulus. -/
def U32LIM : Nat := 2 ^ 32

/-- Wrapping `u32` subtraction.  For operands below `2 ^ 32` this equals
the usual `(a + 2 ^ 32 - b) % 2 ^ 32` (proved in `u32sub_spec`); it is
phrased with a branch instead of `%` so that kernel reduction terminates on
symbolic operands. -/
def u32sub (a b : Nat) : Nat := if b ≤ a then a - b else a + U32LIM - b

/-- Association-list lookup, standing in for `HashMap::get` / ECS `Query::get`. -/
def alookup {α β : Type} [DecidableEq α] : List (α × β) → α → Option β
  | [], _ => none
  | p :: ps, k => if p.1 = k then some p.2 else alookup ps k

/-- Association-list pointwise update, standing in for writing through an ECS
`Mut` reference obtained from a successful `Query::get_mut`. -/
def aupdate {α β : Type} [DecidableEq α] (l : List (α × β)) (k : α) (f : β → β) :
    List (α × β) :=
  l.map (fun p => if p.1 = k then (p.1, f p.2) else p)

/-- Association-list insert-or-replace, standing in for `HashMap::insert`. -/
def ainsert {α β : Type} [DecidableEq α] (l : List (α × β)) (k : α) (v : β) :
    List (α × β) :=
  (k, v) :: l.filter (fun p => p.1 ≠ k)

/-- Association-list key removal, standing in for `HashMap::remove`. -/
def aremove {α β : Type} [DecidableEq α] (l : List (α × β)) (k : α) :
    List (α × β) :=
  l.filter (fun p => p.1 ≠ k)

/-! ### Direction facing bitsets (`char.rs` / `game.rs`) -/

/-- `DirectionFacingFlags` (`char.rs`): a `u32` bitflags set with the five
bits NONE, UP, LEFT, RIGHT, DOWN; modelled as one `Bool` per bit. -/
structure DirectionFacingFlags where
  none : Bool
  up : Bool
  left : Bool
  right : Bool
  down : Bool
deriving DecidableEq, Repr

/-- `FullDirectionFacingFlags` (`game.rs`): same five base bits; the diagonal
constants are unions of the base bits. -/
structure FullDirectionFacingFlags where
  none : Bool
  up : Bool
  left : Bool
  right : Bool
  down : Bool
deriving DecidableEq, Repr

namespace FullDirectionFacingFlags

def NONE : FullDirectionFacingFlags := ⟨true, false, false, false, false⟩
def UP : FullDirectionFacingFlags := ⟨false, true, false, false, false⟩
def LEFT : FullDirectionFacingFlags := ⟨false, false, true, false, false⟩
def RIGHT : FullDirectionFacingFlags := ⟨false, false, false, true, false⟩
def DOWN : FullDirectionFacingFlags := ⟨false, false, false, false, true⟩
def UP_LEFT : FullDirectionFacingFlags := ⟨false, true, true, false, false⟩
def UP_RIGHT : FullDirectionFacingFlags := ⟨false, true, false, true, false⟩
def DOWN_LEFT : FullDirectionFacingFlags := ⟨false, false, true, false, true⟩
def DOWN_RIGHT : FullDirectionFacingFlags := ⟨false, false, false, true, true⟩

end FullDirectionFacingFlags

/-- `DirectionFacingFlags::get_full_dir_flags` (`game.rs`): copies the raw
bits, cancels the UP/DOWN pair and the LEFT/RIGHT pair, and clears the NONE
bit whenever any direction bit survives (`intersects(!NONE)`). -/
def DirectionFacingFlags.get_full_dir_flags (d : DirectionFacingFlags) :
    FullDirectionFacingFlags :=
  let f : FullDirectionFacingFlags :=
    ⟨d.none, d.up, d.left, d.right, d.down⟩
  let f := if f.up && f.down then { f with up := false, down := false } else f
  let f := if f.left && f.right then { f with left := false, right := false } else f
  if f.up || f.left || f.right || f.down then { f with none := false } else f

/-- Modelled from the spec (§4.1), for comparison with the source resolver:
cancel the UP/DOWN pair, cancel the LEFT/RIGHT pair, map an empty remainder
to `none`, and map any other remainder directly to its directional value. -/
def specDirectionResolve (u d l r : Bool) : FullDirectionFacingFlags :=
  let u2 := if u && d then false else u
  let d2 := if u && d then false else d
  let l2 := if l && r then false else l
  let r2 := if l && r then false else r
  if u2 || d2 || l2 || r2 then ⟨false, u2, l2, r2, d2⟩
  else FullDirectionFacingFlags.NONE

/-! ### Physics component state (`bevy_rapier` components mutated by the game) -/

structure Vec2Q where
  x : ℚ
  y : ℚ
deriving DecidableEq, Repr

instance : Add Vec2Q := ⟨fun a b => ⟨a.x + b.x, a.y + b.y⟩⟩

structure Velocity where
  linvel : Vec2Q
  angvel : ℚ
deriving DecidableEq, Repr

structure ExternalForce where
  force : Vec2Q
  torque : ℚ
deriving DecidableEq, Repr

structure Damping where
  linear_damping : ℚ
  angular_damping : ℚ
deriving DecidableEq, Repr

/-! ### Movement-action templates (`char.rs`) -/

/-- `MovementAction` (`char.rs`): a movement template with optional
overwrite and accumulate fields per physics component. -/
structure MovementAction where
  id : String
  instance_affected_id : String
  set_velocity : Option Vec2Q
  add_velocity : Option Vec2Q
  set_angvel : Option ℚ
  add_angvel : Option ℚ
  set_external_force : Option Vec2Q
  add_external_force : Option Vec2Q
  set_external_torque : Option ℚ
  add_external_torque : Option ℚ
  set_lin_damping : Option ℚ
  add_lin_damping : Option ℚ
  set_ang_damping : Option ℚ
  add_ang_damping : Option ℚ
  require_available_jumps : Bool
  required_jumps : Nat
  jumps_removed : Nat
deriving DecidableEq, Repr

/-- Bundle of the three mutable physics components a movement template
touches (the `Velocity`, `ExternalForce`, `Damping` of one entity). -/
structure PhysState where
  velocity : Velocity
  external_force : ExternalForce
  damping : Damping
deriving DecidableEq, Repr

namespace MovementAction

/-- `MovementAction::set_values` (`char.rs:410`): each `set_*` field, when
present, overwrites the matching component. -/
def set_values (a : MovementAction) (s : PhysState) : PhysState :=
  { velocity :=
      { linvel :=
          match a.set_velocity with
          | none => s.velocity.linvel
          | some v => v
        angvel :=
          match a.set_angvel with
          | none => s.velocity.angvel
          | some w => w }
    external_force :=
      { force :=
          match a.set_external_force with
          | none => s.external_force.force
          | some v => v
        torque :=
          match a.set_external_torque with
          | none => s.external_force.torque
          | some t => t }
    damping :=
      { linear_damping :=
          match a.set_lin_damping with
          | none => s.damping.linear_damping
          | some v => v
        angular_damping :=
          match a.set_ang_damping with
          | none => s.damping.angular_damping
          | some v => v } }

/-- `MovementAction::add_values` (`char.rs:446`): each `add_*` field, when
present, accumulates onto the matching component. -/
def add_values (a : MovementAction) (s : PhysState) : PhysState :=
  { velocity :=
      { linvel :=
          s.velocity.linvel +
            (match a.add_velocity with
             | none => (⟨0, 0⟩ : Vec2Q)
             | some v => v)
        angvel :=
          s.velocity.angvel +
            (match a.add_angvel with
             | none => 0
             | some w => w) }
    external_force :=
      { force :=
          s.external_force.force +
            (match a.add_external_force with
             | none => (⟨0, 0⟩ : Vec2Q)
             | some v => v)
        torque :=
          s.external_force.torque +
            (match a.add_external_torque with
             | none => 0
             | some t => t) }
    damping :=
      { linear_damping :=
          s.damping.linear_damping +
            (match a.add_lin_damping with
             | none => 0
             | some v => v)
        angular_damping :=
          s.damping.angular_damping +
            (match a.add_ang_damping with
             | none => 0
             | some v => v) } }

end MovementAction

/-- The per-projectile application performed in
`MovementAttackAction::execute_action` (`projectile.rs:396-398`): the source
calls `add_values` first and `set_values` afterwards. -/
def deferredApply (a : MovementAction) (s : PhysState) : PhysState :=
  a.set_values (a.add_values s)

/-- Modelled from the spec (§4.5), for comparison with `deferredApply`:
the "set" fields applied first, the "add" fields accumulated afterwards. -/
def specDeferredApply (a : MovementAction) (s : PhysState) : PhysState :=
  a.add_values (a.set_values s)

/-! ### Player descriptor (`char.rs`) -/

/-- `AAPlayerDescriptor` (`char.rs`). `maximum_jumps` and `available_jumps`
are `u32` in the source. -/
structure AAPlayerDescriptor where
  maximum_jumps : Nat
  available_jumps : Nat
  char_collision_dominance : Bool
  direction_facing : DirectionFacingFlags
  lock_jumps_at_max : Bool
deriving DecidableEq, Repr

/-- `bitflags::set` on `DirectionFacingFlags`: every bit of the mask is set
to the given boolean, the other bits are untouched. -/
def DirectionFacingFlags.setFlags (d mask : DirectionFacingFlags) (b : Bool) :
    DirectionFacingFlags :=
  { none := if mask.none then b else d.none
    up := if mask.up then b else d.up
    left := if mask.left then b else d.left
    right := if mask.right then b else d.right
    down := if mask.down then b else d.down }

/-! ### Instance maps and attack actions (`projectile.rs`) -/

/-- `InstanceIdDir` (`projectile.rs`): an instance tag qualified by the
canonical facing it was recorded under. -/
inductive InstanceIdDir where
  | UpLeft (id : String)
  | UpRight (id : String)
  | DownRight (id : String)
  | DownLeft (id : String)
  | Left (id : String)
  | Right (id : String)
  | Down (id : String)
  | Up (id : String)
  | NoneDir (id : String)
deriving DecidableEq, Repr

/-- `InstanceItems` (`projectile.rs`): handles stored in an instance slot. -/
inductive InstanceItems where
  | Projectile (e : Entity)
deriving DecidableEq, Repr

/-- `InstanceMap = HashMap<InstanceIdDir, Vec<InstanceItems>>`. -/
abbrev InstanceMap : Type := List (InstanceIdDir × List InstanceItems)

/-- `FullDirectionFacingFlags::get_instance_id` (`projectile.rs:197`): match
on the facing constants in source order, with a `None` fallback. -/
def FullDirectionFacingFlags.get_instance_id
    (f : FullDirectionFacingFlags) (id : String) : InstanceIdDir :=
  if f = FullDirectionFacingFlags.UP_LEFT then InstanceIdDir.UpLeft id
  else if f = FullDirectionFacingFlags.UP_RIGHT then InstanceIdDir.UpRight id
  else if f = FullDirectionFacingFlags.DOWN_RIGHT then InstanceIdDir.DownRight id
  else if f = FullDirectionFacingFlags.DOWN_LEFT then InstanceIdDir.DownLeft id
  else if f = FullDirectionFacingFlags.LEFT then InstanceIdDir.Left id
  else if f = FullDirectionFacingFlags.RIGHT then InstanceIdDir.Right id
  else if f = FullDirectionFacingFlags.DOWN then InstanceIdDir.Down id
  else if f = FullDirectionFacingFlags.UP then InstanceIdDir.Up id
  else InstanceIdDir.NoneDir id

/-- `SpawnProjectileAction` (`projectile.rs`): per-facing projectile template
ids plus the instance tag. -/
structure SpawnProjectileAction where
  id : String
  none_id : String
  left_id : String
  right_id : String
  down_id : String
  up_id : String
  up_left_id : String
  up_right_id : String
  down_left_id : String
  down_right_id : String
  instance_id : String
deriving DecidableEq, Repr

/-- `MovementAttackAction` (`projectile.rs`): per-facing movement-template
ids plus the instance tag. -/
structure MovementAttackAction where
  id : String
  none_id : String
  left_id : String
  right_id : String
  down_id : String
  up_id : String
  up_left_id : String
  up_right_id : String
  down_left_id : String
  down_right_id : String
  instance_id : String
deriving DecidableEq, Repr

/-- The per-facing id selection shared by `SpawnProjectileAction` and
`MovementAttackAction` `execute_action` (`projectile.rs:225`, `:343`):
match on the facing constants in source order, with a `none_id` fallback. -/
def MovementAttackAction.facing_id
    (a : MovementAttackAction) (f : FullDirectionFacingFlags) : String :=
  if f = FullDirectionFacingFlags.UP_LEFT then a.up_left_id
  else if f = FullDirectionFacingFlags.UP_RIGHT then a.up_right_id
  else if f = FullDirectionFacingFlags.DOWN_LEFT then a.down_left_id
  else if f = FullDirectionFacingFlags.DOWN_RIGHT then a.down_right_id
  else if f = FullDirectionFacingFlags.UP then a.up_id
  else if f = FullDirectionFacingFlags.LEFT then a.left_id
  else if f = FullDirectionFacingFlags.DOWN then a.down_id
  else if f = FullDirectionFacingFlags.RIGHT then a.right_id
  else a.none_id

/-- `AttackActions` (`projectile.rs`): the tagged union of attack actions. -/
inductive AttackActions where
  | SpawnProjectile (a : SpawnProjectileAction)
  | MoveAttackAction (a : MovementAttackAction)
deriving DecidableEq, Repr

/-- `MovementActionMap = HashMap<String, Vec<MovementAction>>` (`char.rs`). -/
abbrev MovementActionMap : Type := List (String × List MovementAction)

/-- The fields of `CharEntities` (`char.rs`) read by the deferred-resolution
pass: the core entity handle, the owning player id and the movement-template
catalog (the asset/physics/collider catalogs are only used when spawning). -/
structure CharEntities where
  core : Entity
  player_id : Nat
  movement_map : MovementActionMap

/-- The projectile-side ECS query of the deferred pass:
`Query<(&mut Velocity, &mut ExternalForce, &mut ProjectileIdentifier,
&mut Damping)>`, restricted to the three components a movement template
mutates. -/
abbrev ProjQuery : Type := List (Entity × PhysState)

/-- The inner loop of `MovementAttackAction::execute_action`
(`projectile.rs:377-401`) over the handles of one instance slot.  A handle
whose entity is missing from the query triggers `warn!` and `return`
(`projectile.rs:392`), aborting the whole `execute_action` call; the `Bool`
records that abort.  A found handle gets `add_values` then `set_values`. -/
def processItems (a : MovementAction) :
    List InstanceItems → ProjQuery → ProjQuery × Bool
  | [], q => (q, false)
  | InstanceItems.Projectile e :: rest, q =>
    match alookup q e with
    | none => (q, true)
    | some _ => processItems a rest (aupdate q e (deferredApply a))

/-- The loop of `MovementAttackAction::execute_action`
(`projectile.rs:368-404`) over the movement templates found under the
facing-selected id: a missing slot is skipped, and an abort from
`processItems` (the source `return`) stops the remaining templates. -/
def processActions (facing : FullDirectionFacingFlags) (imap : InstanceMap) :
    List MovementAction → ProjQuery → ProjQuery
  | [], q => q
  | a :: rest, q =>
    match alookup imap (facing.get_instance_id a.instance_affected_id) with
    | none => processActions facing imap rest q
    | some items =>
      match processItems a items q with
      | (q2, true) => q2
      | (q2, false) => processActions facing imap rest q2

/-- `MovementAttackAction::execute_action` (`projectile.rs:328`): resolve the
fighter's facing, select the movement-template id for that facing, and apply
each found template to the entities of its instance slot. -/
def MovementAttackAction.execute_action (a : MovementAttackAction)
    (ce : CharEntities) (pd : AAPlayerDescriptor) (imap : InstanceMap)
    (q : ProjQuery) : ProjQuery :=
  let facing := pd.direction_facing.get_full_dir_flags
  match alookup ce.movement_map (a.facing_id facing) with
  | none => q
  | some movement_action => processActions facing imap movement_action q

/-! ### Deferred batch queue (`projectile.rs`) -/

/-- `UnusedAction` (`projectile.rs:408`): one deferred batch. -/
structure UnusedAction where
  actions : List AttackActions
  player_id : Nat
  instance_id : Nat
deriving DecidableEq

/-- `AttackInstanceDirectory` (`char.rs:135`), without the per-player
cooldown table, which is modelled separately below. -/
structure AttackInstanceDirectory where
  attack_instances : List (Nat × InstanceMap)
  previous_used_id : Nat
  unexecuted_actions : List UnusedAction

/-- The read-only surroundings of `execute_unused_actions`: the
`CharComponentMap` resource and the `(AAPlayerDescriptor, Transform)` player
query (the transform is never read by the deferred pass), plus the mutable
projectile query. -/
structure DeferredWorld where
  char_map : List (Nat × CharEntities)
  player_query : List (Entity × AAPlayerDescriptor)
  projectile_query : ProjQuery

/-- The batch body of `execute_unused_actions` (`projectile.rs:589-601`):
spawn actions are ignored, move actions run in order against the batch's
instance map, threading the projectile query. -/
def processBatchActions (ce : CharEntities) (pd : AAPlayerDescriptor)
    (imap : InstanceMap) : List AttackActions → ProjQuery → ProjQuery
  | [], q => q
  | AttackActions.SpawnProjectile _ :: rest, q =>
    processBatchActions ce pd imap rest q
  | AttackActions.MoveAttackAction ma :: rest, q =>
    processBatchActions ce pd imap rest (ma.execute_action ce pd imap q)

/-- Whether the three lookups guarding a batch in `execute_unused_actions`
(instance map, `CharComponentMap` entry, player query on the core entity)
all succeed; a batch failing any of them is `continue`d over. -/
def batchLookupOk (d : AttackInstanceDirectory) (w : DeferredWorld)
    (ua : UnusedAction) : Bool :=
  (alookup d.attack_instances ua.instance_id).isSome &&
    match alookup w.char_map ua.player_id with
    | none => false
    | some ce => (alookup w.player_query ce.core).isSome

/-- The main loop of `execute_unused_actions` (`projectile.rs:551-604`):
walk the pending batches, skipping (`continue`) any whose instance map,
char-map entry or player-query entry is missing, running the rest and
recording their instance ids in the removal list. -/
def processUnused (d : AttackInstanceDirectory) (w : DeferredWorld) :
    List UnusedAction → ProjQuery → List Nat → ProjQuery × List Nat
  | [], q, rem => (q, rem)
  | ua :: rest, q, rem =>
    match alookup d.attack_instances ua.instance_id with
    | none => processUnused d w rest q rem
    | some imap =>
      match alookup w.char_map ua.player_id with
      | none => processUnused d w rest q rem
      | some ce =>
        match alookup w.player_query ce.core with
        | none => processUnused d w rest q rem
        | some pd =>
          processUnused d w rest (processBatchActions ce pd imap ua.actions q)
            (rem ++ [ua.instance_id])

/-- `execute_unused_actions` (`projectile.rs:538`): run the pending batches,
then retain only the batches whose instance id was not recorded for removal
and delete the recorded instance maps. -/
def execute_unused_actions (d : AttackInstanceDirectory) (w : DeferredWorld) :
    AttackInstanceDirectory × DeferredWorld :=
  let pr := processUnused d w d.unexecuted_actions w.projectile_query []
  ({ d with
      unexecuted_actions :=
        d.unexecuted_actions.filter (fun ua => !(pr.2.contains ua.instance_id))
      attack_instances :=
        pr.2.foldl (fun m i => aremove m i) d.attack_instances },
   { w with projectile_query := pr.1 })

/-! ### Health, projectiles and despawning (`char.rs`, `projectile.rs`, `game.rs`) -/

/-- `PlayerHealth` (`char.rs`): current/maximum health (`f32`) plus
health-bar display configuration. -/
structure PlayerHealth where
  maximum_health : ℚ
  current_health : ℚ
  healthbar_distance : ℚ
  width : ℚ
  height : ℚ
  radius : ℚ
  subdivisions : Nat
deriving DecidableEq, Repr

/-- `ProjectileIdentifier` (`projectile.rs:76`): the combat payload carried
by a spawned projectile. `pierce` is `u32` in the source. -/
structure ProjectileIdentifier where
  created_timestamp : ℚ
  lifetime : ℚ
  damage : ℚ
  pierce : Nat
  parent : Entity
deriving DecidableEq, Repr

/-- `ProjectileIdentifier::apply_projectile` (`projectile.rs:485`): subtract
the damage from the struck fighter's current health (no clamping) and
decrement the pierce counter (`u32` wrapping subtraction). -/
def ProjectileIdentifier.apply_projectile (p : ProjectileIdentifier)
    (health : PlayerHealth) : ProjectileIdentifier × PlayerHealth :=
  (⟨p.created_timestamp, p.lifetime, p.damage, u32sub p.pierce 1, p.parent⟩,
   { health with current_health := health.current_health - p.damage })

/-- The despawn test of `projectile_lifetimes` (`projectile.rs:627`): a
projectile is despawned exactly when its creation timestamp is strictly
older than `now - lifetime`. -/
def projectileDespawns (p : ProjectileIdentifier) (now : ℚ) : Bool :=
  p.created_timestamp < now - p.lifetime

/-- `projectile_lifetimes` (`projectile.rs:621`): the projectile entities
surviving the per-tick lifetime pass. -/
def projectile_lifetimes (q : List (Entity × ProjectileIdentifier)) (now : ℚ) :
    List (Entity × ProjectileIdentifier) :=
  q.filter (fun p => !projectileDespawns p.2 now)

/-- `health_despawn_check` (`game.rs:299`): the fighter entities surviving
the per-tick health pass; any entity with `current_health <= 0` is
despawned together with its synced objects. -/
def health_despawn_check (q : List (Entity × PlayerHealth)) :
    List (Entity × PlayerHealth) :=
  q.filter (fun p => !(p.2.current_health ≤ 0))

/-! ### Cooldown table (`char.rs`) -/

/-- `AttackType` (`char.rs`). -/
inductive AttackType where
  | OneOne
  | TwoOne
  | OneTwo
  | TwoTwo
deriving DecidableEq, Repr

/-- `AttackCooldown` (`char.rs:183`): start timestamp and duration (`f64`). -/
structure AttackCooldown where
  cooldown_start : ℚ
  cooldown_duration : ℚ
deriving DecidableEq, Repr

/-- `AttackKey` (`char.rs`). -/
inductive AttackKey where
  | One
  | Two
deriving DecidableEq, Repr

/-- `Attack` (`projectile.rs:55`): symbolic action ids plus the cooldown. -/
structure Attack where
  actions : List String
  cooldown : ℚ
deriving DecidableEq, Repr

/-- `AvailableAttacks` (`char.rs:108`): the four combo slots. -/
structure AvailableAttacks where
  one_one : Option Attack
  one_two : Option Attack
  two_one : Option Attack
  two_two : Option Attack
deriving DecidableEq, Repr

/-- One fighter's cooldown table (`HashMap<AttackType, AttackCooldown>`). -/
abbrev CooldownTable : Type := List (AttackType × AttackCooldown)

/-- The per-player body of `check_cooldowns` (`char.rs:152-160`): retain a
cooldown entry exactly while `duration - (now - start)` is positive. -/
def check_cooldowns (now : ℚ) (cds : CooldownTable) : CooldownTable :=
  cds.filter (fun p =>
    !(p.2.cooldown_duration - (now - p.2.cooldown_start) ≤ 0))

/-- The combo-key dispatch of `CharEntities::apply_attack`
(`char.rs:206-220`): which attack slot and attack type a buffered pair
selects. -/
def attackSlotOf (attacks : AvailableAttacks) (buffer : AttackKey × AttackKey) :
    Option Attack × AttackType :=
  match buffer with
  | (AttackKey.One, AttackKey.One) => (attacks.one_one, AttackType.OneOne)
  | (AttackKey.One, AttackKey.Two) => (attacks.one_two, AttackType.OneTwo)
  | (AttackKey.Two, AttackKey.One) => (attacks.two_one, AttackType.TwoOne)
  | (AttackKey.Two, AttackKey.Two) => (attacks.two_two, AttackType.TwoTwo)

/-- The cooldown gate of `CharEntities::apply_attack` (`char.rs:222-254`):
with no entry for the attack type, record a cooldown entry (when the slot
holds an attack) and execute (`true`); with an entry present, return without
executing (`false`). -/
def apply_attack_gate (attacks : AvailableAttacks)
    (buffer : AttackKey × AttackKey) (cds : CooldownTable) (now : ℚ) :
    Bool × CooldownTable :=
  let sel := attackSlotOf attacks buffer
  match alookup cds sel.2 with
  | none =>
    (true,
     match sel.1 with
     | none => cds
     | some a =>
       ainsert cds sel.2
         { cooldown_start := now, cooldown_duration := a.cooldown })
  | some _ => (false, cds)

/-! ### Jump bookkeeping (`char.rs`, `game.rs`) -/

/-- The descriptor update of the `Started` arm of
`single_update_player_jump_reset` (`game.rs:157-163`). -/
def jumpResetStartedDesc (pd : AAPlayerDescriptor) : AAPlayerDescriptor :=
  { pd with available_jumps := pd.maximum_jumps, char_collision_dominance := true }

/-- The descriptor update of the `Stopped` arm of
`single_update_player_jump_reset` (`game.rs:164-169`); `maximum_jumps - 1`
is a `u32` subtraction. -/
def jumpResetStoppedDesc (pd : AAPlayerDescriptor) : AAPlayerDescriptor :=
  ⟨pd.maximum_jumps, u32sub pd.maximum_jumps 1, false, pd.direction_facing,
    pd.lock_jumps_at_max⟩

/-- The per-player descriptor update of the `Started` arm of
`double_update_player_jump_reset` (`game.rs:208-219`). -/
def doubleStartedDesc (pd : AAPlayerDescriptor) : AAPlayerDescriptor :=
  { pd with available_jumps := pd.maximum_jumps }

/-- The per-player descriptor update of the `Stopped` arm of
`double_update_player_jump_reset` (`game.rs:220-236`): decrement only when
the player does not hold collision dominance. -/
def doubleStoppedDesc (pd : AAPlayerDescriptor) : AAPlayerDescriptor :=
  if !pd.char_collision_dominance then
    ⟨pd.maximum_jumps, u32sub pd.maximum_jumps 1, pd.char_collision_dominance,
      pd.direction_facing, pd.lock_jumps_at_max⟩
  else pd

/-- The per-player update of `enforce_char_collision_dominance`
(`game.rs:176`). -/
def enforceDominanceDesc (pd : AAPlayerDescriptor) : AAPlayerDescriptor :=
  if pd.char_collision_dominance then
    { pd with available_jumps := pd.maximum_jumps }
  else pd

/-- The descriptor part of `MovementAction::apply_action` (`char.rs:482`):
set or clear the facing bits, then, for a jump-consuming action with enough
available jumps and no collision dominance, remove `jumps_removed` jumps
(`u32` subtraction).  Returns the updated descriptor and whether the
physics values are applied. -/
def MovementAction.apply_action_descriptor (a : MovementAction)
    (pd : AAPlayerDescriptor) (set_direction_facing : DirectionFacingFlags × Bool) :
    AAPlayerDescriptor × Bool :=
  let pd := { pd with direction_facing :=
      pd.direction_facing.setFlags set_direction_facing.1 set_direction_facing.2 }
  match a.require_available_jumps with
  | true =>
    if pd.available_jumps ≥ a.required_jumps then
      (if !pd.char_collision_dominance then
        ⟨pd.maximum_jumps, u32sub pd.available_jumps a.jumps_removed,
          pd.char_collision_dominance, pd.direction_facing,
          pd.lock_jumps_at_max⟩
       else pd, true)
    else (pd, false)
  | false => (pd, true)

/-- `MovementAction::apply_action` (`char.rs:482`): the direct movement
path; when the jump gate passes, apply `set_values` then `add_values`. -/
def MovementAction.apply_action (a : MovementAction) (s : PhysState)
    (pd : AAPlayerDescriptor) (set_direction_facing : DirectionFacingFlags × Bool) :
    PhysState × AAPlayerDescriptor :=
  let (pd2, process_actions) := a.apply_action_descriptor pd set_direction_facing
  if process_actions then (a.add_values (a.set_values s), pd2) else (s, pd2)

/-! ### Collision processing (`game.rs`) -/

/-- The `(PlayerIdentifier, AAPlayerDescriptor, PlayerHealth)` tuple of the
player query in `collision_process`. -/
structure PlayerComp where
  player_id : Nat
  descriptor : AAPlayerDescriptor
  health : PlayerHealth
deriving DecidableEq, Repr

/-- `CollisionEventType` (`game.rs:33`). -/
inductive CollisionEventType where
  | Started
  | Stopped
deriving DecidableEq, Repr

/-- `FoundPlayerRigidId` (`game.rs:44`). -/
inductive FoundPlayerRigidId where
  | ColliderOne
  | ColliderTwo
  | Both
deriving DecidableEq, Repr

/-- `CollisionPlayerType` (`game.rs:38`). -/
inductive CollisionPlayerType where
  | NoPlayer
  | Two (f : FoundPlayerRigidId) (p : Entity × Entity)
  | Single (f : FoundPlayerRigidId) (p : Entity)
deriving DecidableEq, Repr

/-- `bevy_rapier` `CollisionEvent` with the `REMOVED` flag. -/
inductive CollisionEvent where
  | Started (c1 c2 : Entity) (removed : Bool)
  | Stopped (c1 c2 : Entity) (removed : Bool)
deriving DecidableEq, Repr

/-- The world state read and written by `collision_process`: the three ECS
queries and the collider tag sets. -/
structure CollisionWorld where
  players : List (Entity × PlayerComp)
  projectiles : List (Entity × ProjectileIdentifier)
  parents : List (Entity × Entity)
  children : List (Entity × List Entity)
  jump_reset_colliders : List Entity
  death_colliders : List Entity
  solid_colliders : List Entity

/-- Collider-to-owner resolution used throughout `collision_process`: walk
up one parent level when the collider is a child, else keep the handle. -/
def CollisionWorld.resolveCollider (w : CollisionWorld) (c : Entity) : Entity :=
  match alookup w.parents c with
  | some p => p
  | none => c

/-- Replace one player's component tuple in the player query. -/
def CollisionWorld.updatePlayer (w : CollisionWorld) (e : Entity)
    (f : PlayerComp → PlayerComp) : CollisionWorld :=
  { w with players := aupdate w.players e f }

/-- `process_collision_event` (`game.rs:50`): resolve both colliders to
their owners and classify how many of them are fighters. -/
def process_collision_event (w : CollisionWorld) (collider_one collider_two : Entity) :
    CollisionPlayerType :=
  let c1 := w.resolveCollider collider_one
  let c2 := w.resolveCollider collider_two
  match (alookup w.players c1).isSome, (alookup w.players c2).isSome with
  | false, false => CollisionPlayerType.NoPlayer
  | false, true => CollisionPlayerType.Single FoundPlayerRigidId.ColliderTwo c2
  | true, false => CollisionPlayerType.Single FoundPlayerRigidId.ColliderOne c1
  | true, true => CollisionPlayerType.Two FoundPlayerRigidId.Both (c1, c2)

/-- `single_update_player_death` (`game.rs:104`): when the other collider is
a death collider, both the `Started` and the `Stopped` arm set the fighter's
current health to 0. -/
def single_update_player_death (w : CollisionWorld)
    (player_body potential_death : Entity) (collision_type : CollisionEventType) :
    CollisionWorld :=
  if potential_death ∈ w.death_colliders then
    match collision_type with
    | CollisionEventType.Started =>
      w.updatePlayer player_body
        (fun pc => { pc with health := { pc.health with current_health := 0 } })
    | CollisionEventType.Stopped =>
      w.updatePlayer player_body
        (fun pc => { pc with health := { pc.health with current_health := 0 } })
  else w

/-- `single_update_player_jump_reset` (`game.rs:139`). -/
def single_update_player_jump_reset (w : CollisionWorld)
    (player_body potential_jump_reset : Entity)
    (collision_type : CollisionEventType) : CollisionWorld :=
  if potential_jump_reset ∈ w.jump_reset_colliders then
    match collision_type with
    | CollisionEventType.Started =>
      w.updatePlayer player_body
        (fun pc => { pc with descriptor := jumpResetStartedDesc pc.descriptor })
    | CollisionEventType.Stopped =>
      w.updatePlayer player_body
        (fun pc => { pc with descriptor := jumpResetStoppedDesc pc.descriptor })
  else w

/-- `enforce_char_collision_dominance` (`game.rs:176`): every tick, any
fighter holding collision dominance has its jumps forced back to maximum. -/
def enforce_char_collision_dominance (w : CollisionWorld) : CollisionWorld :=
  { w with players :=
      w.players.map (fun p =>
        (p.1, { p.2 with descriptor := enforceDominanceDesc p.2.descriptor })) }

/-- Whether a player entity has a jump-reset collider among its children
(the scan of `double_update_player_jump_reset`, `game.rs:198-203`). -/
def CollisionWorld.anyChildJumpReset (w : CollisionWorld) (p : Entity) : Bool :=
  match alookup w.children p with
  | none => false
  | some cs => cs.any (fun c => decide (c ∈ w.jump_reset_colliders))

/-- `double_update_player_jump_reset` (`game.rs:184`): when either player
carries a jump-reset collider child, update both players (reset to maximum
on `Started`; dominance-guarded decrement on `Stopped`) and return after the
first hit. -/
def double_update_player_jump_reset (w : CollisionWorld)
    (player_one player_two : Entity) (collision_type : CollisionEventType) :
    CollisionWorld :=
  if w.anyChildJumpReset player_one || w.anyChildJumpReset player_two then
    match collision_type with
    | CollisionEventType.Started =>
      (w.updatePlayer player_one
          (fun pc => { pc with descriptor := doubleStartedDesc pc.descriptor })).updatePlayer
        player_two
        (fun pc => { pc with descriptor := doubleStartedDesc pc.descriptor })
    | CollisionEventType.Stopped =>
      (w.updatePlayer player_one
          (fun pc => { pc with descriptor := doubleStoppedDesc pc.descriptor })).updatePlayer
        player_two
        (fun pc => { pc with descriptor := doubleStoppedDesc pc.descriptor })
  else w

/-- `projectile_hit_collision_event` (`game.rs:248`): resolve the projectile
collider to its body, refuse self-damage and non-solid colliders, then apply
the projectile to the struck fighter. -/
def projectile_hit_collision_event (w : CollisionWorld)
    (char_entity projectile_entity : Entity) : CollisionWorld :=
  match alookup w.parents projectile_entity with
  | none => w
  | some pe =>
    match alookup w.projectiles pe with
    | none => w
    | some projectile_id =>
      match alookup w.parents char_entity with
      | none => w
      | some par =>
        if par = projectile_id.parent then w
        else if ¬(char_entity ∈ w.solid_colliders) then w
        else
          match alookup w.players par with
          | none => w
          | some player =>
            let (pid2, h2) := projectile_id.apply_projectile player.health
            { w with
                projectiles := aupdate w.projectiles pe (fun _ => pid2)
                players := aupdate w.players par (fun pc => { pc with health := h2 }) }

/-- One iteration of the event loop of `collision_process` (`game.rs:311`):
events flagged `REMOVED` are ignored; a single-fighter `Started` event runs
jump reset, death and projectile hit in that order; a single-fighter
`Stopped` event runs only the jump reset; two-fighter events run the double
jump reset.  (`FoundPlayerRigidId.Both` on a `Single` is unreachable from
`process_collision_event`; the source panics there.) -/
def processOneCollision (w : CollisionWorld) (ev : CollisionEvent) :
    CollisionWorld :=
  match ev with
  | CollisionEvent.Started c1 c2 removed =>
    if removed then w
    else
      match process_collision_event w c1 c2 with
      | CollisionPlayerType.NoPlayer => w
      | CollisionPlayerType.Single found player_id =>
        let oc :=
          match found with
          | FoundPlayerRigidId.ColliderOne => (c2, c1)
          | FoundPlayerRigidId.ColliderTwo => (c1, c2)
          | FoundPlayerRigidId.Both => (c2, c1)
        let w1 := single_update_player_jump_reset w player_id oc.1
          CollisionEventType.Started
        let w2 := single_update_player_death w1 player_id oc.1
          CollisionEventType.Started
        projectile_hit_collision_event w2 oc.2 oc.1
      | CollisionPlayerType.Two _ p =>
        double_update_player_jump_reset w p.1 p.2 CollisionEventType.Started
  | CollisionEvent.Stopped c1 c2 removed =>
    if removed then w
    else
      match process_collision_event w c1 c2 with
      | CollisionPlayerType.NoPlayer => w
      | CollisionPlayerType.Single found player_id =>
        let oc :=
          match found with
          | FoundPlayerRigidId.ColliderOne => (c2, c1)
          | FoundPlayerRigidId.ColliderTwo => (c1, c2)
          | FoundPlayerRigidId.Both => (c2, c1)
        single_update_player_jump_reset w player_id oc.1
          CollisionEventType.Stopped
      | CollisionPlayerType.Two _ p =>
        double_update_player_jump_reset w p.1 p.2 CollisionEventType.Stopped

/-- `collision_process` (`game.rs:311`): fold over the tick's events. -/
def collision_process (w : CollisionWorld) (events : List CollisionEvent) :
    CollisionWorld :=
  events.foldl processOneCollision w

/-! ### Collider synchronization (`char.rs`, `assets.rs`) -/

structure Vec3Q where
  x : ℚ
  y : ℚ
  z : ℚ
deriving DecidableEq, Repr

instance : Add Vec3Q := ⟨fun a b => ⟨a.x + b.x, a.y + b.y, a.z + b.z⟩⟩
instance : Sub Vec3Q := ⟨fun a b => ⟨a.x - b.x, a.y - b.y, a.z - b.z⟩⟩

/-- A Bevy `Transform` restricted to what the sync pass reads and writes:
the rotation is represented by its z-axis angle (the only part of the
quaternion the pass copies or reads). -/
structure Transform where
  translation : Vec3Q
  rotation : ℚ
  scale : Vec3Q
deriving DecidableEq, Repr

/-- `SyncColliderFlags` (`rigidbody.rs`): the per-dependent
rotation-inherit flag. -/
structure SyncColliderFlags where
  rotation : Bool
deriving DecidableEq, Repr

/-- `SyncTransformOffset` (`char.rs:1290`). -/
structure SyncTransformOffset where
  transform : Transform
deriving DecidableEq, Repr

/-- `SvgInfo`: the intrinsic dimensions of a vector asset. -/
structure SvgInfo where
  dimensions : Vec2Q
deriving DecidableEq, Repr

/-- `update_transform_svg` (`assets.rs:359`): displace the entity by half
its intrinsic bounding box (vertical axis flipped, scaled by the current
scale), rotated by the current z-rotation.  `rot2 θ v` stands for
`Mat2::from_angle(θ).mul_vec2(v)`; only the translation is written. -/
def update_transform_svg (rot2 : ℚ → Vec2Q → Vec2Q) (svg_info : SvgInfo)
    (t : Transform) : Transform :=
  let centre_offset_dims : Vec2Q :=
    ⟨svg_info.dimensions.x * (1 / 2), svg_info.dimensions.y * (1 / 2) * (-1)⟩
  let transform_adjust : Vec2Q :=
    ⟨centre_offset_dims.x * t.scale.x, centre_offset_dims.y * t.scale.y⟩
  let z_rot := t.rotation
  let rotated_vector := rot2 z_rot transform_adjust
  { t with translation :=
      t.translation - ⟨rotated_vector.x, rotated_vector.y, 0⟩ }

/-- The body of `sync_objects_colliders` (`char.rs:1302-1341`) for one
dependent entity: copy the primary translation (keeping the entity's z),
copy the rotation only when the rotation-inherit flag is set, add the fixed
offset when one exists (the source also evaluates
`rotation.add(offset.rotation)` there, but `Quat`'s `add` returns a new
value that is discarded, so the rotation is not written), and finally apply
the vector-asset anchor correction when the entity is an SVG. -/
def syncOneEntity (rot2 : ℚ → Vec2Q → Vec2Q) (collider_position : Transform)
    (sync_flags : SyncColliderFlags) (offset : Option SyncTransformOffset)
    (svg : Option SvgInfo) (t : Transform) : Transform :=
  let t := { t with translation :=
      ⟨collider_position.translation.x, collider_position.translation.y,
        t.translation.z⟩ }
  let t :=
    if sync_flags.rotation then { t with rotation := collider_position.rotation }
    else t
  let t :=
    match offset with
    | none => t
    | some sync_offset =>
      { t with translation := t.translation + sync_offset.transform.translation }
  match svg with
  | none => t
  | some svg_info => update_transform_svg rot2 svg_info t

/-- `sync_objects_colliders` (`char.rs:1295`) for one `ColliderSyncEntity`
group: walk the dependent list, skipping entities missing from the
transform query (logged error) and updating the rest in place. -/
def sync_objects_colliders (rot2 : ℚ → Vec2Q → Vec2Q)
    (collider_position : Transform)
    (offsets : List (Entity × SyncTransformOffset))
    (svgs : List (Entity × SvgInfo)) :
    List (Entity × SyncColliderFlags) → List (Entity × Transform) →
      List (Entity × Transform)
  | [], tfs => tfs
  | (e, flags) :: rest, tfs =>
    match alookup tfs e with
    | none => sync_objects_colliders rot2 collider_position offsets svgs rest tfs
    | some _ =>
      sync_objects_colliders rot2 collider_position offsets svgs rest
        (aupdate tfs e
          (syncOneEntity rot2 collider_position flags (alookup offsets e)
            (alookup svgs e)))

/-! ### Concrete fixtures used by witnesses and counterexamples -/

/-- A neutral movement template (ids empty, all optional fields absent,
`required_jumps` and `jumps_removed` at their serde defaults of 1). -/
def baseMovementAction : MovementAction :=
  ⟨"", "", none, none, none, none, none, none, none, none, none, none, none,
    none, false, 1, 1⟩

/-- Physics components all at rest. -/
def basePhysState : PhysState := ⟨⟨⟨0, 0⟩, 0⟩, ⟨⟨0, 0⟩, 0⟩, ⟨0, 0⟩⟩

/-- The resting direction bitset: only the NONE bit, as in
`AAPlayerDescriptor::default`. -/
def dirNone : DirectionFacingFlags := ⟨true, false, false, false, false⟩

/-- A default player descriptor (`char.rs:351`). -/
def basePlayerDescriptor : AAPlayerDescriptor := ⟨1, 0, false, dirNone, false⟩

/-- A bland health component at 10/100 health. -/
def baseHealth : PlayerHealth := ⟨100, 10, 0, 0, 0, 0, 0⟩

/-! ### Association-list lemmas -/

theorem vec2qAddDef (a b : Vec2Q) : a + b = ⟨a.x + b.x, a.y + b.y⟩ := rfl

theorem vec3qAddDef (a b : Vec3Q) :
    a + b = ⟨a.x + b.x, a.y + b.y, a.z + b.z⟩ := rfl

theorem vec3qSubDef (a b : Vec3Q) :
    a - b = ⟨a.x - b.x, a.y - b.y, a.z - b.z⟩ := rfl

theorem u32sub_spec {a b : Nat} (ha : a < U32LIM) (hb : b ≤ U32LIM) :
    u32sub a b = (a + U32LIM - b) % U32LIM := by
  have hl : U32LIM = 4294967296 := by norm_num [U32LIM]
  rw [u32sub, hl]
  rw [hl] at ha hb
  split <;> omega

theorem u32sub_eq_sub {a b : Nat} (hb : b ≤ a) (_ha : a < U32LIM) :
    u32sub a b = a - b := by
  rw [u32sub, if_pos hb]

theorem alookup_nil {α β : Type} [DecidableEq α] (k : α) :
    alookup ([] : List (α × β)) k = none := rfl

theorem alookup_cons {α β : Type} [DecidableEq α]
    (p : α × β) (ps : List (α × β)) (k : α) :
    alookup (p :: ps) k = if p.1 = k then some p.2 else alookup ps k := rfl

theorem aupdate_cons {α β : Type} [DecidableEq α]
    (p : α × β) (ps : List (α × β)) (k : α) (f : β → β) :
    aupdate (p :: ps) k f =
      (if p.1 = k then (p.1, f p.2) else p) :: aupdate ps k f := by
  by_cases h : p.1 = k <;> simp [aupdate, h]

theorem aremove_cons {α β : Type} [DecidableEq α]
    (p : α × β) (ps : List (α × β)) (k : α) :
    aremove (p :: ps) k = if p.1 = k then aremove ps k else p :: aremove ps k := by
  by_cases h : p.1 = k <;> simp [aremove, h]

theorem alookup_aupdate_self {α β : Type} [DecidableEq α]
    (l : List (α × β)) (k : α) (f : β → β) :
    alookup (aupdate l k f) k = (alookup l k).map f := by
  induction l with
  | nil => rfl
  | cons p ps ih =>
    by_cases h : p.1 = k
    · simp [aupdate_cons, alookup_cons, h]
    · simp [aupdate_cons, alookup_cons, h, ih]

theorem alookup_aupdate_ne {α β : Type} [DecidableEq α]
    (l : List (α × β)) (k k' : α) (f : β → β) (h : k' ≠ k) :
    alookup (aupdate l k f) k' = alookup l k' := by
  induction l with
  | nil => rfl
  | cons p ps ih =>
    by_cases hp : p.1 = k
    · have hne : ¬(p.1 = k') := fun hh => h (hh ▸ hp ▸ rfl)
      simp [aupdate_cons, alookup_cons, hp, hne, ih, Ne.symm h]
    · by_cases hp' : p.1 = k'
      · simp [aupdate_cons, alookup_cons, hp, hp', h]
      · simp [aupdate_cons, alookup_cons, hp, hp', ih]

theorem alookup_eq_none_of_forall {α β : Type} [DecidableEq α]
    {l : List (α × β)} {k : α} (h : ∀ x ∈ l, x.1 ≠ k) :
    alookup l k = none := by
  induction l with
  | nil => rfl
  | cons p ps ih =>
    have hp := h p (List.mem_cons_self p ps)
    rw [alookup_cons, if_neg hp]
    exact ih (fun x hx => h x (List.mem_cons_of_mem p hx))

theorem alookup_aremove_none {α β : Type} [DecidableEq α]
    (l : List (α × β)) (k k' : α) (h : alookup l k = none) :
    alookup (aremove l k') k = none := by
  induction l with
  | nil => rfl
  | cons p ps ih =>
    rw [alookup_cons] at h
    by_cases hp : p.1 = k
    · simp [hp] at h
    · rw [if_neg hp] at h
      by_cases hk' : p.1 = k'
      · rw [aremove_cons, if_pos hk']
        exact ih h
      · rw [aremove_cons, if_neg hk', alookup_cons, if_neg hp]
        exact ih h

theorem alookup_aremove_self {α β : Type} [DecidableEq α]
    (l : List (α × β)) (k : α) :
    alookup (aremove l k) k = none := by
  refine alookup_eq_none_of_forall (fun x hx => ?_)
  have := List.of_mem_filter hx
  simpa using this

/-! ### C9: the direction resolver -/

/-- Claim C9: on every reachable direction bitset (the NONE bit is set by
`AAPlayerDescriptor::default` and never cleared, since movement actions only
set or clear the four direction bits), `get_full_dir_flags` cancels the
UP/DOWN and LEFT/RIGHT pairs, resolves an empty remainder to NONE, and maps
any other remainder directly to its directional value — the spec-side
resolver `specDirectionResolve`.  In particular {up, down}, {left, right}
and {} resolve to NONE, {up, left} to UP_LEFT, and {up, down, left} to
LEFT. -/
theorem c9_direction_resolver :
    (∀ u l r d : Bool,
      DirectionFacingFlags.get_full_dir_flags ⟨true, u, l, r, d⟩ =
        specDirectionResolve u d l r) ∧
    DirectionFacingFlags.get_full_dir_flags ⟨true, true, false, false, true⟩ =
      FullDirectionFacingFlags.NONE ∧
    DirectionFacingFlags.get_full_dir_flags ⟨true, false, true, true, false⟩ =
      FullDirectionFacingFlags.NONE ∧
    DirectionFacingFlags.get_full_dir_flags ⟨true, true, true, false, false⟩ =
      FullDirectionFacingFlags.UP_LEFT ∧
    DirectionFacingFlags.get_full_dir_flags ⟨true, false, false, false, false⟩ =
      FullDirectionFacingFlags.NONE ∧
    DirectionFacingFlags.get_full_dir_flags ⟨true, true, true, false, true⟩ =
      FullDirectionFacingFlags.LEFT := by
  refine ⟨?_, by decide, by decide, by decide, by decide, by decide⟩
  decide

/-! ### C1: order of "set" and "add" in the deferred movement application -/

/-- Counterexample to claim C1: a movement template with
`set_velocity = (1, 0)` and `add_velocity = (2, 0)` applied by the deferred
path to a resting projectile yields linear velocity (1, 0) — the source
(`projectile.rs:396-398`) runs `add_values` first and `set_values` second —
whereas the claimed set-then-add order (`specDeferredApply`) would yield
(3, 0). -/
theorem c1_counterexample :
    (deferredApply
        { baseMovementAction with
            set_velocity := some ⟨1, 0⟩, add_velocity := some ⟨2, 0⟩ }
        basePhysState).velocity.linvel = ⟨1, 0⟩ ∧
    (specDeferredApply
        { baseMovementAction with
            set_velocity := some ⟨1, 0⟩, add_velocity := some ⟨2, 0⟩ }
        basePhysState).velocity.linvel = ⟨3, 0⟩ ∧
    (⟨1, 0⟩ : Vec2Q) ≠ ⟨3, 0⟩ := by
  refine ⟨rfl, ?_, ?_⟩
  · simp only [specDeferredApply, MovementAction.set_values,
      MovementAction.add_values, baseMovementAction, basePhysState,
      vec2qAddDef, Vec2Q.mk.injEq]
    norm_num
  · simp only [ne_eq, Vec2Q.mk.injEq, not_and]
    intro h
    norm_num at h

/-- Claim C1 (amended): the deferred movement application runs the
template's "add" fields first and its "set" fields afterwards, so a "set"
on a component overwrites any "add" on the same component, and an "add"
accumulates on the previous value only for components without a "set". -/
theorem c1_deferred_add_then_set (a : MovementAction) (s : PhysState) :
    deferredApply a s = a.set_values (a.add_values s) ∧
    (deferredApply a s).velocity.linvel =
      a.set_velocity.getD (s.velocity.linvel + a.add_velocity.getD ⟨0, 0⟩) ∧
    (deferredApply a s).velocity.angvel =
      a.set_angvel.getD (s.velocity.angvel + a.add_angvel.getD 0) ∧
    (deferredApply a s).external_force.force =
      a.set_external_force.getD
        (s.external_force.force + a.add_external_force.getD ⟨0, 0⟩) ∧
    (deferredApply a s).external_force.torque =
      a.set_external_torque.getD
        (s.external_force.torque + a.add_external_torque.getD 0) ∧
    (deferredApply a s).damping.linear_damping =
      a.set_lin_damping.getD
        (s.damping.linear_damping + a.add_lin_damping.getD 0) ∧
    (deferredApply a s).damping.angular_damping =
      a.set_ang_damping.getD
        (s.damping.angular_damping + a.add_ang_damping.getD 0) := by
  refine ⟨rfl, ?_, ?_, ?_, ?_, ?_, ?_⟩
  · cases hs : a.set_velocity <;> cases ha : a.add_velocity <;>
      simp [deferredApply, MovementAction.set_values, MovementAction.add_values,
        hs, ha]
  · cases hs : a.set_angvel <;> cases ha : a.add_angvel <;>
      simp [deferredApply, MovementAction.set_values, MovementAction.add_values,
        hs, ha]
  · cases hs : a.set_external_force <;> cases ha : a.add_external_force <;>
      simp [deferredApply, MovementAction.set_values, MovementAction.add_values,
        hs, ha]
  · cases hs : a.set_external_torque <;> cases ha : a.add_external_torque <;>
      simp [deferredApply, MovementAction.set_values, MovementAction.add_values,
        hs, ha]
  · cases hs : a.set_lin_damping <;> cases ha : a.add_lin_damping <;>
      simp [deferredApply, MovementAction.set_values, MovementAction.add_values,
        hs, ha]
  · cases hs : a.set_ang_damping <;> cases ha : a.add_ang_damping <;>
      simp [deferredApply, MovementAction.set_values, MovementAction.add_values,
        hs, ha]

/-! ### C4: health is not clamped at zero -/

/-- Counterexample to claim C4: a projectile with damage 10 hitting a
fighter at 5 health leaves `current_health = -5`; `apply_projectile`
(`projectile.rs:491`) subtracts without clamping. -/
theorem c4_counterexample :
    ((⟨0, 100, 10, 3, 0⟩ : ProjectileIdentifier).apply_projectile
        { baseHealth with current_health := 5 }).2.current_health = -5 ∧
    ¬((0 : ℚ) ≤ -5) := by
  constructor
  · simp only [ProjectileIdentifier.apply_projectile, baseHealth]
    norm_num
  · norm_num

/-- Claim C4 (amended): each projectile hit subtracts the damage from the
fighter's current health with no clamping, so repeated hits can drive
health negative; separately, the per-tick `health_despawn_check` despawns
exactly the fighters whose health is ≤ 0. -/
theorem c4_health_unclamped (p : ProjectileIdentifier) (h : PlayerHealth)
    (q : List (Entity × PlayerHealth)) (x : Entity × PlayerHealth) :
    (p.apply_projectile h).2.current_health = h.current_health - p.damage ∧
    (x ∈ health_despawn_check q ↔ x ∈ q ∧ ¬(x.2.current_health ≤ 0)) := by
  constructor
  · rfl
  · simp [health_despawn_check, List.mem_filter]

/-! ### C5: projectile despawn conditions -/

/-- Counterexample to claim C5: a projectile whose pierce count reaches 0
through a hit is not despawned — `apply_projectile` decrements `pierce` but
nothing in the code inspects it, and the lifetime pass keeps any projectile
whose creation timestamp is not older than `now - lifetime`. -/
theorem c5_counterexample :
    ((⟨0, 100, 5, 1, 0⟩ : ProjectileIdentifier).apply_projectile
        baseHealth).1.pierce = 0 ∧
    projectileDespawns
      ((⟨0, 100, 5, 1, 0⟩ : ProjectileIdentifier).apply_projectile
        baseHealth).1 10 = false := by
  constructor
  · show u32sub 1 1 = 0
    rw [u32sub_eq_sub (le_refl 1) (by norm_num [U32LIM])]
  · simp only [projectileDespawns, ProjectileIdentifier.apply_projectile,
      decide_eq_false_iff_not]
    norm_num

/-- Claim C5 (amended): a projectile entity is despawned by the per-tick
lifetime pass exactly when its creation timestamp is older than
`now - lifetime`; the pierce count is decremented (wrapping `u32`) per
applied hit but never causes a despawn. -/
theorem c5_lifetime_only_despawn (q : List (Entity × ProjectileIdentifier))
    (now : ℚ) (x : Entity × ProjectileIdentifier) (p : ProjectileIdentifier)
    (h : PlayerHealth) :
    (x ∈ projectile_lifetimes q now ↔
      x ∈ q ∧ ¬(x.2.created_timestamp < now - x.2.lifetime)) ∧
    (p.apply_projectile h).1.pierce = u32sub p.pierce 1 := by
  constructor
  · simp [projectile_lifetimes, projectileDespawns, List.mem_filter]
  · rfl

/-! ### C8: the cooldown gate -/

theorem alookup_ainsert_self {α β : Type} [DecidableEq α]
    (l : List (α × β)) (k : α) (v : β) :
    alookup (ainsert l k v) k = some v := by
  simp [ainsert, alookup_cons]

/-- Claim C8: with the attack type bound to an attack, the cooldown gate of
`apply_attack` executes and records an entry when none is present, refuses
while an entry is present (true then false for two calls before the
duration elapses, true again after the per-tick prune has removed it), and
the prune retains an entry exactly while `now - start < duration`, i.e.
removes it exactly when `now - start ≥ duration`. -/
theorem c8_cooldown_gate (attacks : AvailableAttacks)
    (buffer : AttackKey × AttackKey) (cds0 : CooldownTable) (t0 t1 t2 : ℚ)
    (a : Attack) (atype : AttackType)
    (hslot : attackSlotOf attacks buffer = (some a, atype))
    (hfree : alookup cds0 atype = none) :
    (apply_attack_gate attacks buffer cds0 t0).1 = true ∧
    alookup (apply_attack_gate attacks buffer cds0 t0).2 atype =
      some ⟨t0, a.cooldown⟩ ∧
    (t1 - t0 < a.cooldown →
      (apply_attack_gate attacks buffer
        (check_cooldowns t1 (apply_attack_gate attacks buffer cds0 t0).2)
        t1).1 = false) ∧
    (a.cooldown ≤ t2 - t0 →
      (apply_attack_gate attacks buffer
        (check_cooldowns t2 (apply_attack_gate attacks buffer cds0 t0).2)
        t2).1 = true) ∧
    (∀ (now : ℚ) (cds : CooldownTable) (p : AttackType × AttackCooldown),
      p ∈ check_cooldowns now cds ↔
        p ∈ cds ∧ now - p.2.cooldown_start < p.2.cooldown_duration) := by
  have hg : apply_attack_gate attacks buffer cds0 t0 =
      (true, ainsert cds0 atype ⟨t0, a.cooldown⟩) := by
    simp [apply_attack_gate, hslot, hfree]
  have hfst : ∀ (cds : CooldownTable) (now : ℚ),
      (apply_attack_gate attacks buffer cds now).1 = (alookup cds atype).isNone := by
    intro cds now
    simp only [apply_attack_gate, hslot]
    cases halo : alookup cds atype <;> simp [halo]
  refine ⟨by rw [hg], ?_, ?_, ?_, ?_⟩
  · rw [hg]
    exact alookup_ainsert_self cds0 atype ⟨t0, a.cooldown⟩
  · intro hlt
    have hsome : alookup
        (check_cooldowns t1 (apply_attack_gate attacks buffer cds0 t0).2) atype =
          some ⟨t0, a.cooldown⟩ := by
      rw [hg]
      unfold check_cooldowns ainsert
      rw [List.filter_cons_of_pos (by
        simp only [Bool.not_eq_true', decide_eq_false_iff_not, not_le]
        linarith)]
      simp [alookup_cons]
    rw [hfst, hsome]
    rfl
  · intro hle
    have hnone :
        alookup (check_cooldowns t2 (apply_attack_gate attacks buffer cds0 t0).2)
          atype = none := by
      rw [hg]
      unfold check_cooldowns ainsert
      rw [List.filter_cons_of_neg (by
        simp only [Bool.not_eq_true', decide_eq_false_iff_not, not_le, not_lt]
        linarith)]
      refine alookup_eq_none_of_forall (fun x hx => ?_)
      have hx2 := List.mem_of_mem_filter hx
      have := List.of_mem_filter hx2
      simpa using this
    rw [hfst, hnone]
    rfl
  · intro now cds p
    simp only [check_cooldowns, List.mem_filter, Bool.not_eq_true',
      decide_eq_false_iff_not, not_le]
    constructor
    · rintro ⟨hm, hlt⟩
      exact ⟨hm, by linarith⟩
    · rintro ⟨hm, hlt⟩
      exact ⟨hm, by linarith⟩

/-- Witness for C8 at a concrete attack table: combo 1-1 bound with
cooldown 2, gated at times 0 and 1. -/
theorem c8_cooldown_gate_witness :
    attackSlotOf ⟨some ⟨[], 2⟩, none, none, none⟩ (AttackKey.One, AttackKey.One) =
      (some ⟨[], 2⟩, AttackType.OneOne) ∧
    alookup ([] : CooldownTable) AttackType.OneOne = none ∧
    (apply_attack_gate ⟨some ⟨[], 2⟩, none, none, none⟩
      (AttackKey.One, AttackKey.One) [] 0).1 = true ∧
    ((1 : ℚ) - 0 < 2) ∧
    (apply_attack_gate ⟨some ⟨[], 2⟩, none, none, none⟩
      (AttackKey.One, AttackKey.One)
      (check_cooldowns 1
        (apply_attack_gate ⟨some ⟨[], 2⟩, none, none, none⟩
          (AttackKey.One, AttackKey.One) [] 0).2) 1).1 = false := by
  have h := c8_cooldown_gate ⟨some ⟨[], 2⟩, none, none, none⟩
    (AttackKey.One, AttackKey.One) [] 0 1 2 ⟨[], 2⟩ AttackType.OneOne rfl rfl
  exact ⟨rfl, rfl, h.1, by norm_num, h.2.2.1 (by norm_num)⟩

/-! ### C7: the available-jumps bound -/

/-- A single-fighter world at `maximum_jumps = 0` standing on a jump-reset
collider: entity 1 is the fighter body, entity 2 the jump-reset collider. -/
def cw7 : CollisionWorld :=
  { players := [(1, ⟨1, ⟨0, 0, false, dirNone, false⟩, baseHealth⟩)]
    projectiles := []
    parents := []
    children := []
    jump_reset_colliders := [2]
    death_colliders := []
    solid_colliders := [] }

/-- Counterexample to claim C7: with a configured maximum of 0 jumps, the
`Stopped` arm of the jump-reset handler writes `maximum_jumps - 1` with a
wrapping `u32` subtraction, leaving `available_jumps = 2^32 - 1`, far above
the configured maximum — the bound is not preserved by that operation. -/
theorem c7_counterexample :
    (alookup (collision_process cw7 [CollisionEvent.Stopped 1 2 false]).players
        1).map (fun pc => pc.descriptor.available_jumps) =
      some (u32sub 0 1) ∧
    (alookup (collision_process cw7 [CollisionEvent.Stopped 1 2 false]).players
        1).map (fun pc => pc.descriptor.maximum_jumps) = some 0 ∧
    u32sub 0 1 = 4294967295 ∧
    ¬(4294967295 ≤ 0) := by
  refine ⟨rfl, rfl, ?_, by norm_num⟩
  rw [u32sub]
  norm_num [U32LIM]

/-- Claim C7 (amended): provided the fighter's configured maximum is at
least 1 (and below 2^32, its `u32` range), and every jump-consuming
movement template removes no more jumps than it requires, each operation
touching the counter — the movement-action jump gate, the single and double
jump-reset handlers (both collision phases) and the per-tick dominance
enforcement — keeps `available_jumps ≤ maximum_jumps`. -/
theorem c7_jump_bound_preservation (pd : AAPlayerDescriptor)
    (a : MovementAction) (sdf : DirectionFacingFlags × Bool)
    (hinv : pd.available_jumps ≤ pd.maximum_jumps)
    (hlim : pd.maximum_jumps < U32LIM)
    (hone : 1 ≤ pd.maximum_jumps)
    (hma : a.jumps_removed ≤ a.required_jumps) :
    ((a.apply_action_descriptor pd sdf).1.available_jumps ≤
      (a.apply_action_descriptor pd sdf).1.maximum_jumps) ∧
    (jumpResetStartedDesc pd).available_jumps ≤
      (jumpResetStartedDesc pd).maximum_jumps ∧
    (jumpResetStoppedDesc pd).available_jumps ≤
      (jumpResetStoppedDesc pd).maximum_jumps ∧
    (doubleStartedDesc pd).available_jumps ≤
      (doubleStartedDesc pd).maximum_jumps ∧
    (doubleStoppedDesc pd).available_jumps ≤
      (doubleStoppedDesc pd).maximum_jumps ∧
    (enforceDominanceDesc pd).available_jumps ≤
      (enforceDominanceDesc pd).maximum_jumps := by
  have hstop : u32sub pd.maximum_jumps 1 ≤ pd.maximum_jumps := by
    rw [u32sub_eq_sub hone hlim]
    exact Nat.sub_le _ _
  refine ⟨?_, ?_, ?_, ?_, ?_, ?_⟩
  case refine_2 => exact le_refl _
  case refine_3 => exact hstop
  case refine_4 => exact le_refl _
  · simp only [MovementAction.apply_action_descriptor]
    cases hreq : a.require_available_jumps
    · simpa using hinv
    · simp only
      by_cases havail :
          pd.available_jumps ≥ a.required_jumps
      · rw [if_pos havail]
        by_cases hdom : pd.char_collision_dominance
        · simp [hdom, hinv]
        · have hrem : a.jumps_removed ≤ pd.available_jumps :=
            le_trans hma havail
          have hal : pd.available_jumps < U32LIM := lt_of_le_of_lt hinv hlim
          simp only [hdom, Bool.not_false, if_pos]
          rw [u32sub_eq_sub hrem hal]
          exact le_trans (le_trans (Nat.sub_le _ _) hinv) (le_refl _)
      · rw [if_neg havail]
        simpa using hinv
  · simp only [doubleStoppedDesc]
    by_cases hdom : pd.char_collision_dominance
    · simp [hdom, hinv]
    · simp [hdom, hstop]
  · simp only [enforceDominanceDesc]
    by_cases hdom : pd.char_collision_dominance
    · simp [hdom]
    · simp [hdom, hinv]

/-- Witness for C7 at a concrete descriptor (maximum 2, 1 jump available)
and the neutral movement template. -/
theorem c7_jump_bound_preservation_witness :
    (1 ≤ 2 ∧ (2 : Nat) < U32LIM ∧
      baseMovementAction.jumps_removed ≤ baseMovementAction.required_jumps) ∧
    (jumpResetStoppedDesc ⟨2, 1, false, dirNone, false⟩).available_jumps ≤
      (jumpResetStoppedDesc ⟨2, 1, false, dirNone, false⟩).maximum_jumps := by
  refine ⟨⟨by norm_num, by norm_num [U32LIM], le_refl _⟩, ?_⟩
  exact (c7_jump_bound_preservation ⟨2, 1, false, dirNone, false⟩
    baseMovementAction (dirNone, false) (by norm_num) (by norm_num [U32LIM])
    (by norm_num) (le_refl _)).2.2.1

/-! ### C10: rotation-inherit disabled means rotation untouched -/

theorem syncOneEntity_rotation (rot2 : ℚ → Vec2Q → Vec2Q)
    (cp : Transform) (fl : SyncColliderFlags)
    (off : Option SyncTransformOffset) (svg : Option SvgInfo) (t : Transform)
    (h : fl.rotation = false) :
    (syncOneEntity rot2 cp fl off svg t).rotation = t.rotation := by
  cases off <;> cases svg <;>
    simp [syncOneEntity, update_transform_svg, h]

/-- Claim C10: a dependent entity all of whose occurrences in the sync
group carry a disabled rotation-inherit flag keeps its rotation unchanged
through the whole `sync_objects_colliders` pass, for every primary
transform, offset table, SVG table and rotation function. -/
theorem c10_rotation_not_inherited (rot2 : ℚ → Vec2Q → Vec2Q)
    (cp : Transform) (offsets : List (Entity × SyncTransformOffset))
    (svgs : List (Entity × SvgInfo))
    (synced : List (Entity × SyncColliderFlags))
    (tfs : List (Entity × Transform)) (e : Entity)
    (h : ∀ fl, (e, fl) ∈ synced → fl.rotation = false) :
    (alookup (sync_objects_colliders rot2 cp offsets svgs synced tfs) e).map
        Transform.rotation =
      (alookup tfs e).map Transform.rotation := by
  induction synced generalizing tfs with
  | nil => rfl
  | cons p rest ih =>
    obtain ⟨e2, fl2⟩ := p
    have hrest : ∀ fl, (e, fl) ∈ rest → fl.rotation = false :=
      fun fl hm => h fl (List.mem_cons_of_mem _ hm)
    cases hlk : alookup tfs e2 with
    | none =>
      rw [sync_objects_colliders, hlk]
      exact ih tfs hrest
    | some t0 =>
      rw [sync_objects_colliders, hlk]
      rw [ih _ hrest]
      by_cases he : e2 = e
      · subst he
        have hfl : fl2.rotation = false := h fl2 (List.mem_cons_self _ _)
        rw [alookup_aupdate_self]
        cases h0 : alookup tfs e2 with
        | none => rfl
        | some t1 =>
          simp [syncOneEntity_rotation rot2 cp fl2 _ _ t1 hfl]
      · rw [alookup_aupdate_ne _ _ _ _ (fun hh => he hh.symm)]

/-- Witness for C10: one dependent entity with rotation-inherit off, primary
body rotated to angle 5, entity at angle 7 — the pass leaves angle 7. -/
theorem c10_rotation_not_inherited_witness :
    (∀ fl, ((0 : Entity), fl) ∈ [((0 : Entity), SyncColliderFlags.mk false)] →
      fl.rotation = false) ∧
    (alookup
        (sync_objects_colliders (fun _ v => v) ⟨⟨1, 2, 3⟩, 5, ⟨1, 1, 1⟩⟩ [] []
          [((0 : Entity), SyncColliderFlags.mk false)]
          [((0 : Entity), ⟨⟨0, 0, 0⟩, 7, ⟨1, 1, 1⟩⟩)]) (0 : Entity)).map
        Transform.rotation =
      (alookup [((0 : Entity), (⟨⟨0, 0, 0⟩, 7, ⟨1, 1, 1⟩⟩ : Transform))]
          (0 : Entity)).map Transform.rotation := by
  have hfl : ∀ fl, ((0 : Entity), fl) ∈
      [((0 : Entity), SyncColliderFlags.mk false)] → fl.rotation = false := by
    intro fl hm
    simp at hm
    rw [hm]
  exact ⟨hfl, c10_rotation_not_inherited (fun _ v => v) ⟨⟨1, 2, 3⟩, 5, ⟨1, 1, 1⟩⟩
    [] [] [((0 : Entity), SyncColliderFlags.mk false)]
    [((0 : Entity), ⟨⟨0, 0, 0⟩, 7, ⟨1, 1, 1⟩⟩)] (0 : Entity) hfl⟩

/-! ### C6: a vanished entity aborts the current MoveAction -/

/-- A movement template that sets the linear velocity of its instance slot
"tag" to (5, 0). -/
def maTag : MovementAction :=
  { baseMovementAction with
      instance_affected_id := "tag", set_velocity := some ⟨5, 0⟩ }

/-- Char entities whose movement catalog binds id "mv" to `maTag`. -/
def ce6 : CharEntities := ⟨0, 1, [("mv", [maTag])]⟩

/-- A deferred movement attack action pointing every facing at template id
"mv" under instance tag "tag". -/
def maa6 : MovementAttackAction :=
  ⟨"atk", "mv", "", "", "", "", "", "", "", "", "tag"⟩

/-- An instance slot holding two projectile handles, 10 and 11. -/
def imap6 : InstanceMap :=
  [(InstanceIdDir.NoneDir "tag",
    [InstanceItems.Projectile 10, InstanceItems.Projectile 11])]

/-- A projectile query in which entity 11 exists but entity 10 does not. -/
def q6 : ProjQuery := [(11, basePhysState)]

/-- Counterexample to claim C6: with slot entities [10, 11] and entity 10
despawned, `execute_action` hits the `return` at `projectile.rs:392` and
leaves entity 11 untouched (velocity still (0, 0)), although the claim
says the remaining handles of the slot are still processed (which would
set it to (5, 0)). -/
theorem c6_counterexample :
    (alookup (maa6.execute_action ce6 basePlayerDescriptor imap6 q6) 11).map
        (fun s => s.velocity.linvel) = some ⟨0, 0⟩ ∧
    (⟨0, 0⟩ : Vec2Q) ≠ ⟨5, 0⟩ := by
  constructor
  · rfl
  · simp only [ne_eq, Vec2Q.mk.injEq, not_and]
    intro h
    norm_num at h

/-- Claim C6 (amended): a handle whose entity no longer exists aborts the
MoveAction being applied — the query is returned as already updated, the
remaining handles of that slot and the remaining movement templates of the
same action are skipped — while the remaining queued MoveActions of the
same batch are still processed. -/
theorem c6_missing_entity_aborts :
    (∀ (a : MovementAction) (e : Entity) (rest : List InstanceItems)
        (q : ProjQuery),
      alookup q e = none →
      processItems a (InstanceItems.Projectile e :: rest) q = (q, true)) ∧
    (∀ (facing : FullDirectionFacingFlags) (imap : InstanceMap)
        (a : MovementAction) (rest : List MovementAction)
        (items : List InstanceItems) (q q2 : ProjQuery),
      alookup imap (facing.get_instance_id a.instance_affected_id) =
        some items →
      processItems a items q = (q2, true) →
      processActions facing imap (a :: rest) q = q2) ∧
    (∀ (ce : CharEntities) (pd : AAPlayerDescriptor) (imap : InstanceMap)
        (ma : MovementAttackAction) (rest : List AttackActions)
        (q : ProjQuery),
      processBatchActions ce pd imap
          (AttackActions.MoveAttackAction ma :: rest) q =
        processBatchActions ce pd imap rest (ma.execute_action ce pd imap q)) := by
  refine ⟨?_, ?_, ?_⟩
  · intro a e rest q h
    simp [processItems, h]
  · intro facing imap a rest items q q2 h1 h2
    simp [processActions, h1, h2]
  · intro ce pd imap ma rest q
    rfl

/-- Witness for C6: the first conjunct applied at a concrete empty query. -/
theorem c6_missing_entity_aborts_witness :
    alookup ([] : ProjQuery) (0 : Entity) = none ∧
    processItems baseMovementAction [InstanceItems.Projectile 0] [] =
      ([], true) :=
  ⟨rfl, c6_missing_entity_aborts.1 baseMovementAction 0 [] [] rfl⟩

/-! ### C2: deferred-batch queue resolution -/

theorem processUnused_rem (d : AttackInstanceDirectory) (w : DeferredWorld) :
    ∀ (uas : List UnusedAction) (q : ProjQuery) (rem : List Nat),
      (processUnused d w uas q rem).2 =
        rem ++ (uas.filter (batchLookupOk d w)).map (fun ua => ua.instance_id) := by
  intro uas
  induction uas with
  | nil => intro q rem; simp [processUnused]
  | cons ua rest ih =>
    intro q rem
    cases h1 : alookup d.attack_instances ua.instance_id with
    | none =>
      simp only [processUnused, h1]
      have hok : batchLookupOk d w ua = false := by
        simp [batchLookupOk, h1]
      rw [List.filter_cons_of_neg (by simp [hok])]
      exact ih q rem
    | some imap =>
      cases h2 : alookup w.char_map ua.player_id with
      | none =>
        simp only [processUnused, h1, h2]
        have hok : batchLookupOk d w ua = false := by
          simp [batchLookupOk, h1, h2]
        rw [List.filter_cons_of_neg (by simp [hok])]
        exact ih q rem
      | some ce =>
        cases h3 : alookup w.player_query ce.core with
        | none =>
          simp only [processUnused, h1, h2, h3]
          have hok : batchLookupOk d w ua = false := by
            simp [batchLookupOk, h1, h2, h3]
          rw [List.filter_cons_of_neg (by simp [hok])]
          exact ih q rem
        | some pd =>
          simp only [processUnused, h1, h2, h3]
          have hok : batchLookupOk d w ua = true := by
            simp [batchLookupOk, h1, h2, h3]
          rw [List.filter_cons_of_pos hok]
          rw [ih _ (rem ++ [ua.instance_id])]
          simp

theorem alookup_foldl_aremove_none {β : Type} (rest : List Nat) :
    ∀ (m : List (Nat × β)) (x : Nat), alookup m x = none →
      alookup (rest.foldl (fun acc i => aremove acc i) m) x = none := by
  induction rest with
  | nil => intro m x h; exact h
  | cons r rs ih =>
    intro m x h
    exact ih (aremove m r) x (alookup_aremove_none m x r h)

theorem alookup_foldl_aremove_of_mem {β : Type} (rem : List Nat) :
    ∀ (m : List (Nat × β)) (x : Nat), x ∈ rem →
      alookup (rem.foldl (fun acc i => aremove acc i) m) x = none := by
  induction rem with
  | nil => intro m x h; cases h
  | cons r rs ih =>
    intro m x h
    rcases List.mem_cons.mp h with h | h
    · subst h
      exact alookup_foldl_aremove_none rs (aremove m x) x
        (alookup_aremove_self m x)
    · exact ih (aremove m r) x h

theorem processActions_nil_imap (facing : FullDirectionFacingFlags) :
    ∀ (mas : List MovementAction) (q : ProjQuery),
      processActions facing [] mas q = q := by
  intro mas
  induction mas with
  | nil => intro q; rfl
  | cons a rest ih =>
    intro q
    rw [processActions]
    exact ih q

/-- Concrete directory with one pending batch for fighter 7 (absent). -/
def d2abs : AttackInstanceDirectory := ⟨[(0, [])], 1, [⟨[], 7, 0⟩]⟩

/-- A world with no fighters at all. -/
def w2abs : DeferredWorld := ⟨[], [], []⟩

/-- Counterexample to claim C2: the batch's owning fighter (id 7) is absent
from the `CharComponentMap`, and `execute_unused_actions` hits the
`continue` at `projectile.rs:567-572` without recording the batch for
removal — the batch is NOT dropped: it remains queued and is retried on the
next tick. -/
theorem c2_counterexample :
    (execute_unused_actions d2abs w2abs).1.unexecuted_actions =
      [⟨[], 7, 0⟩] ∧
    ([⟨[], 7, 0⟩] : List UnusedAction) ≠ [] := by
  constructor
  · rfl
  · simp

/-- Claim C2 (amended): assuming distinct batch ids (they come from a
monotonic counter), a batch whose instance map, char-map entry and
player-query entry are all found is resolved in the pass that examines it
and removed from the queue, with its instance map deleted — never retried,
even when its slots were empty (an action whose instance map is empty has
no effect); but a batch whose owning fighter or instance map is missing is
skipped and retained for a later retry, not dropped. -/
theorem c2_batch_queue_resolution (d : AttackInstanceDirectory)
    (w : DeferredWorld)
    (hnd : (d.unexecuted_actions.map (fun ua => ua.instance_id)).Nodup) :
    (execute_unused_actions d w).1.unexecuted_actions =
      d.unexecuted_actions.filter (fun ua => !batchLookupOk d w ua) ∧
    (∀ ua ∈ d.unexecuted_actions, batchLookupOk d w ua = true →
      alookup (execute_unused_actions d w).1.attack_instances ua.instance_id =
        none) ∧
    (∀ (a : MovementAttackAction) (ce : CharEntities)
        (pd : AAPlayerDescriptor) (q : ProjQuery),
      a.execute_action ce pd [] q = q) := by
  have hrem : (processUnused d w d.unexecuted_actions w.projectile_query []).2 =
      (d.unexecuted_actions.filter (batchLookupOk d w)).map
        (fun ua => ua.instance_id) := by
    simpa using processUnused_rem d w d.unexecuted_actions w.projectile_query []
  refine ⟨?_, ?_, ?_⟩
  · simp only [execute_unused_actions]
    rw [hrem]
    refine List.filter_congr (fun ua hm => ?_)
    congr 1
    by_cases hok : batchLookupOk d w ua = true
    · rw [hok]
      have h1 : ua ∈ d.unexecuted_actions.filter (batchLookupOk d w) :=
        List.mem_filter.mpr ⟨hm, hok⟩
      have h2 : ua.instance_id ∈
          (d.unexecuted_actions.filter (batchLookupOk d w)).map
            (fun ua => ua.instance_id) :=
        List.mem_map_of_mem _ h1
      simpa using h2
    · rw [Bool.not_eq_true] at hok
      rw [hok]
      have hnotin : ua.instance_id ∉
          (d.unexecuted_actions.filter (batchLookupOk d w)).map
            (fun ua => ua.instance_id) := by
        intro hmem
        obtain ⟨ua2, hua2, heq⟩ := List.mem_map.mp hmem
        have hf := List.mem_filter.mp hua2
        have heqa : ua2 = ua := List.inj_on_of_nodup_map hnd hf.1 hm heq
        rw [heqa] at hf
        rw [hf.2] at hok
        cases hok
      simpa using hnotin
  · intro ua hm hok
    simp only [execute_unused_actions]
    rw [hrem]
    refine alookup_foldl_aremove_of_mem _ d.attack_instances ua.instance_id ?_
    exact List.mem_map_of_mem _ (List.mem_filter.mpr ⟨hm, hok⟩)
  · intro a ce pd q
    rw [MovementAttackAction.execute_action]
    cases alookup ce.movement_map
        (a.facing_id pd.direction_facing.get_full_dir_flags) with
    | none => rfl
    | some mas => exact processActions_nil_imap _ mas q

/-- A directory/world pair in which the single pending batch finds all
three lookups: instance map id 0, fighter 1 with core entity 0. -/
def d2ok : AttackInstanceDirectory := ⟨[(0, [])], 1, [⟨[], 1, 0⟩]⟩

def w2ok : DeferredWorld :=
  ⟨[(1, ⟨0, 1, []⟩)], [(0, basePlayerDescriptor)], []⟩

/-- Witness for C2: with distinct batch ids and all lookups succeeding, the
resolved batch leaves the queue. -/
theorem c2_batch_queue_resolution_witness :
    ((d2ok.unexecuted_actions.map (fun ua => ua.instance_id)).Nodup) ∧
    (execute_unused_actions d2ok w2ok).1.unexecuted_actions = [] := by
  have hnd : (d2ok.unexecuted_actions.map (fun ua => ua.instance_id)).Nodup := by
    simp [d2ok]
  refine ⟨hnd, ?_⟩
  have h := (c2_batch_queue_resolution d2ok w2ok hnd).1
  rw [h]
  rfl

/-! ### C3: death colliders zero health on collision start only -/

theorem alookup_aupdate_isSome {α β : Type} [DecidableEq α]
    (l : List (α × β)) (k k2 : α) (f : β → β) :
    (alookup (aupdate l k f) k2).isSome = (alookup l k2).isSome := by
  by_cases hk : k2 = k
  · subst hk
    rw [alookup_aupdate_self]
    cases alookup l k2 <;> rfl
  · rw [alookup_aupdate_ne _ _ _ _ hk]

theorem single_jump_reset_parents (w : CollisionWorld) (pb pj : Entity)
    (ct : CollisionEventType) :
    (single_update_player_jump_reset w pb pj ct).parents = w.parents := by
  unfold single_update_player_jump_reset
  by_cases h : pj ∈ w.jump_reset_colliders
  · rw [if_pos h]; cases ct <;> rfl
  · rw [if_neg h]

theorem single_jump_reset_death_colliders (w : CollisionWorld)
    (pb pj : Entity) (ct : CollisionEventType) :
    (single_update_player_jump_reset w pb pj ct).death_colliders =
      w.death_colliders := by
  unfold single_update_player_jump_reset
  by_cases h : pj ∈ w.jump_reset_colliders
  · rw [if_pos h]; cases ct <;> rfl
  · rw [if_neg h]

theorem single_jump_reset_isSome (w : CollisionWorld) (pb pj : Entity)
    (ct : CollisionEventType) (k : Entity) :
    (alookup (single_update_player_jump_reset w pb pj ct).players k).isSome =
      (alookup w.players k).isSome := by
  unfold single_update_player_jump_reset CollisionWorld.updatePlayer
  by_cases h : pj ∈ w.jump_reset_colliders
  · rw [if_pos h]
    cases ct <;> simp only [] <;>
      exact alookup_aupdate_isSome w.players pb k _
  · rw [if_neg h]

theorem projectile_hit_no_parent (w : CollisionWorld) (ce pe2 : Entity)
    (h : alookup w.parents pe2 = none) :
    projectile_hit_collision_event w ce pe2 = w := by
  unfold projectile_hit_collision_event
  rw [h]

theorem single_death_parents (w : CollisionWorld) (pb pd2 : Entity)
    (ct : CollisionEventType) :
    (single_update_player_death w pb pd2 ct).parents = w.parents := by
  unfold single_update_player_death
  by_cases h : pd2 ∈ w.death_colliders
  · rw [if_pos h]; cases ct <;> rfl
  · rw [if_neg h]

theorem single_death_started_eq (w : CollisionWorld) (pb pd2 : Entity)
    (hd : pd2 ∈ w.death_colliders) :
    single_update_player_death w pb pd2 CollisionEventType.Started =
      w.updatePlayer pb
        (fun pc => { pc with health := { pc.health with current_health := 0 } }) := by
  unfold single_update_player_death
  rw [if_pos hd]

/-- A one-fighter world: entity 1 is the fighter body (health 10), entity 2
a death collider; no parents, no jump-reset colliders. -/
def cw3 : CollisionWorld :=
  ⟨[(1, ⟨1, basePlayerDescriptor, baseHealth⟩)], [], [], [], [], [2], []⟩

/-- Counterexample to claim C3: a collision-STOP event between the fighter
and the death collider leaves health untouched at 10 — `collision_process`
(`game.rs:399-417`) runs only the jump-reset handler on `Stopped` and never
invokes `single_update_player_death` there. -/
theorem c3_counterexample :
    (alookup (collision_process cw3 [CollisionEvent.Stopped 1 2 false]).players
        1).map (fun pc => pc.health.current_health) = some 10 ∧
    (10 : ℚ) ≠ 0 := by
  constructor
  · rfl
  · norm_num

/-- Claim C3 (amended): whenever a collision-START event (not flagged
removed) involves exactly one fighter and a death collider without a parent
entry, that fighter's current health is set to 0; collision-stop events do
not route into the death handler. -/
theorem c3_death_on_started (w : CollisionWorld) (c1 c2 : Entity)
    (h1 : (alookup w.players (w.resolveCollider c1)).isSome = true)
    (h2 : (alookup w.players (w.resolveCollider c2)).isSome = false)
    (hd : c2 ∈ w.death_colliders)
    (hpar : alookup w.parents c2 = none) :
    (alookup (collision_process w [CollisionEvent.Started c1 c2 false]).players
        (w.resolveCollider c1)).map (fun pc => pc.health.current_health) =
      some 0 := by
  have hproc : process_collision_event w c1 c2 =
      CollisionPlayerType.Single FoundPlayerRigidId.ColliderOne
        (w.resolveCollider c1) := by
    simp only [process_collision_event, h1, h2]
  have hone : collision_process w [CollisionEvent.Started c1 c2 false] =
      processOneCollision w (CollisionEvent.Started c1 c2 false) := rfl
  rw [hone]
  simp only [processOneCollision, hproc, Bool.false_eq_true, if_false]
  set p := w.resolveCollider c1 with hp
  set w1 := single_update_player_jump_reset w p c2 CollisionEventType.Started
    with hw1
  have hd1 : c2 ∈ w1.death_colliders := by
    rw [hw1, single_jump_reset_death_colliders]
    exact hd
  rw [single_death_started_eq w1 p c2 hd1]
  set w2 := w1.updatePlayer p
    (fun pc => { pc with health := { pc.health with current_health := 0 } })
    with hw2
  have hpar2 : alookup w2.parents c2 = none := by
    rw [hw2]
    show alookup w1.parents c2 = none
    rw [hw1, single_jump_reset_parents]
    exact hpar
  rw [projectile_hit_no_parent _ _ _ hpar2]
  rw [hw2]
  simp only [CollisionWorld.updatePlayer]
  rw [alookup_aupdate_self]
  have hsome1 : (alookup w1.players p).isSome = true := by
    rw [hw1, single_jump_reset_isSome]
    exact h1
  obtain ⟨pc, hpc⟩ := Option.isSome_iff_exists.mp hsome1
  rw [hpc]
  rfl

/-- Witness for C3 on the concrete one-fighter world `cw3`. -/
theorem c3_death_on_started_witness :
    ((alookup cw3.players (cw3.resolveCollider 1)).isSome = true) ∧
    ((alookup cw3.players (cw3.resolveCollider 2)).isSome = false) ∧
    ((2 : Entity) ∈ cw3.death_colliders) ∧
    (alookup cw3.parents 2 = none) ∧
    (alookup (collision_process cw3 [CollisionEvent.Started 1 2 false]).players
        (cw3.resolveCollider 1)).map (fun pc => pc.health.current_health) =
      some 0 := by
  refine ⟨rfl, rfl, by decide, rfl, ?_⟩
  exact c3_death_on_started cw3 1 2 rfl rfl (by decide) rfl
